import Mathlib

/-!
Shallow embedding of the statistics module in src/api/stats.js and proofs about it.

The JavaScript module computes contribution streaks, a ranked language breakdown and a
recent-activity window from GitHub calendar data, renders them into an SVG document and
serves the document over HTTP.  Every definition below is translated directly from the
source file; machine numbers are modelled as Nat / Int / Rat, JavaScript values that can
be NaN or Infinity are modelled by an explicit JSNum type, and the ambient quantities the
code reads from its environment (the wall clock and the server UTC offset used implicitly
by Date methods) are passed as explicit parameters.
-/

namespace GitHubStats

/-- One day of the GitHub contribution calendar: an ISO date string and a
non-negative contribution count. -/
structure ContributionDay where
  date : String
  contributionCount : Nat
deriving DecidableEq

/-- One week record of the calendar, an ordered list of days. -/
structure Week where
  contributionDays : List ContributionDay
deriving DecidableEq

/-- The contribution calendar returned by the GraphQL query. -/
structure ContributionCalendar where
  totalContributions : Nat
  weeks : List Week
deriving DecidableEq

/-- A language node of a repository language edge: name and optional hex color. -/
structure LanguageNode where
  name : String
  color : Option String
deriving DecidableEq

/-- A repository language edge: byte size plus the language node. -/
structure LanguageEdge where
  size : Nat
  node : LanguageNode
deriving DecidableEq

/-- The languages field of a repository, a list of edges. -/
structure RepoLanguages where
  edges : List LanguageEdge
deriving DecidableEq

/-- A repository as consumed by calculateLanguageStats. -/
structure Repository where
  languages : RepoLanguages
deriving DecidableEq

/-- JavaScript truthy-or on an optional string, as in the expression
color || "#858585": null, undefined and the empty string all fall back. -/
def jsOrDefault : Option String → String → String
  | none, d => d
  | some s, d => if s = "" then d else s

/-- One entry of the languageMap object of calculateLanguageStats: key, accumulated
size and the color recorded when the key was first inserted.  The association list
keeps object property insertion order; GitHub language names are not canonical
integer strings, so Object.entries enumerates the object in insertion order. -/
structure LangEntry where
  name : String
  size : Nat
  color : String
deriving DecidableEq

/-- Property lookup languageMap[name]: first entry with the given key. -/
def lookupEntry : List LangEntry → String → Option LangEntry
  | [], _ => none
  | x :: xs, n => if x.name = n then some x else lookupEntry xs n

/-- The update languageMap[name].size += size on the entry with the given key. -/
def addSize : List LangEntry → String → Nat → List LangEntry
  | [], _, _ => []
  | x :: xs, n, s =>
      if x.name = n then { x with size := x.size + s } :: xs else x :: addSize xs n s

/-- One iteration of the inner forEach of calculateLanguageStats: if the language is
already a key its size is accumulated, otherwise a fresh entry is inserted with the
color seen on this edge (defaulted to the neutral gray). -/
def addEdge (m : List LangEntry) (e : LanguageEdge) : List LangEntry :=
  if (lookupEntry m e.node.name).isSome then
    addSize m e.node.name e.size
  else
    m ++ [⟨e.node.name, e.size, jsOrDefault e.node.color "#858585"⟩]

/-- The two nested forEach loops of calculateLanguageStats building languageMap. -/
def buildLanguageMap (repositories : List Repository) : List LangEntry :=
  repositories.foldl (fun m repo => repo.languages.edges.foldl addEdge m) []

/-- totalSize: the reduce over Object.values summing the accumulated sizes. -/
def totalSizeOf (m : List LangEntry) : Nat := (m.map (·.size)).sum

/-- Rounding to two decimal places, the numeric content of toFixed(2).  JavaScript
rounds the binary double to the nearest two-decimal string; we model the arithmetic
exactly over the rationals. -/
def round2 (x : ℚ) : ℚ := (round (x * 100) : ℤ) / 100

/-- One element of the array calculateLanguageStats returns.  The percentage field
holds the rational value of the toFixed(2) string; when totalSize is zero the
JavaScript division yields NaN, modelled here as none. -/
structure LangStat where
  name : String
  color : String
  percentage : Option ℚ
  size : Nat
deriving DecidableEq

/-- The map step of calculateLanguageStats producing a display entry from a
languageMap entry: percentage = ((data.size / totalSize) * 100).toFixed(2). -/
def mkStat (total : Nat) (x : LangEntry) : LangStat :=
  ⟨x.name, x.color,
    if total = 0 then none else some (round2 (((x.size : ℚ) / (total : ℚ)) * 100)),
    x.size⟩

/-- Object.entries(languageMap).map(...) of the source: all display entries, in
insertion order, with percentages against the full total. -/
def langStats (repositories : List Repository) : List LangStat :=
  let m := buildLanguageMap repositories
  m.map (mkStat (totalSizeOf m))

/-- Insertion of an element into a list sorted non-increasingly by size, keeping the
element after every strictly larger one and before equal ones that originate later. -/
def insertDesc (x : LangStat) : List LangStat → List LangStat
  | [] => [x]
  | y :: ys => if x.size < y.size then y :: insertDesc x ys else x :: y :: ys

/-- Stable descending sort by size.  The source calls Array.prototype.sort with the
comparator (a, b) => b.size - a.size; that sort is specified to be stable, and a
stable sort under a comparator that inspects only the size field has a unique
result, computed here by stable insertion sort. -/
def sortDesc : List LangStat → List LangStat
  | [] => []
  | x :: xs => insertDesc x (sortDesc xs)

/-- calculateLanguageStats: accumulate, compute percentages against the full total,
sort descending by size, keep the top five. -/
def calculateLanguageStats (repositories : List Repository) : List LangStat :=
  (sortDesc (langStats repositories)).take 5

/-- All language edges of all repositories, in traversal order of the two nested
forEach loops. -/
def allEdges (repositories : List Repository) : List LanguageEdge :=
  (repositories.map (·.languages.edges)).flatten

/-- The mutable locals of the for loop of calculateStreaks. -/
structure StreakState where
  currentStreak : Nat
  currentStreakStart : Option String
  longestStreak : Nat
  longestStreakStart : Option String
  longestStreakEnd : Option String
  tempStreak : Nat
  tempStreakStart : Option String
  tempStreakEnd : Option String
deriving DecidableEq

/-- The initial values of the loop locals. -/
def initState : StreakState :=
  ⟨0, none, 0, none, none, 0, none, none⟩

/-- One iteration of the backward for loop of calculateStreaks.  The loop runs the
index i from allDays.length - 1 down to 0; isFirst models the test
i === allDays.length - 1, true exactly on the first iteration. -/
def streakStep (isFirst : Bool) (st : StreakState) (day : ContributionDay) : StreakState :=
  if 0 < day.contributionCount then
    let tempStreakEnd := if st.tempStreak = 0 then some day.date else st.tempStreakEnd
    let tempStreak := st.tempStreak + 1
    let tempStreakStart := some day.date
    if st.longestStreak < tempStreak then
      { st with
          tempStreak := tempStreak,
          tempStreakStart := tempStreakStart,
          tempStreakEnd := tempStreakEnd,
          longestStreak := tempStreak,
          longestStreakStart := tempStreakStart,
          longestStreakEnd := tempStreakEnd }
    else
      { st with
          tempStreak := tempStreak,
          tempStreakStart := tempStreakStart,
          tempStreakEnd := tempStreakEnd }
  else
    if st.currentStreak = 0 ∧ 0 < st.tempStreak ∧ isFirst = true then
      { st with
          currentStreak := st.tempStreak,
          currentStreakStart := st.tempStreakStart,
          tempStreak := 0,
          tempStreakStart := none,
          tempStreakEnd := none }
    else
      { st with
          tempStreak := 0,
          tempStreakStart := none,
          tempStreakEnd := none }

/-- The whole backward for loop; the list argument is the flattened day list already
reversed, so its head is the most recent day (index allDays.length - 1). -/
def streakLoop : Bool → StreakState → List ContributionDay → StreakState
  | _, st, [] => st
  | isFirst, st, day :: rest => streakLoop false (streakStep isFirst st day) rest

/-- The statement after the loop: if the most recent day has contributions, the
current streak is overwritten with the final tempStreak. -/
def finishStreaks (allDays : List ContributionDay) (st : StreakState) : StreakState :=
  match allDays.getLast? with
  | some day =>
      if 0 < day.contributionCount then
        { st with currentStreak := st.tempStreak, currentStreakStart := st.tempStreakStart }
      else st
  | none => st

/-- The record calculateStreaks returns. -/
structure StreakResult where
  current : Nat
  currentStart : String
  longest : Nat
  longestStart : String
  longestEnd : String
deriving DecidableEq

/-- calculateStreaks.  The source derives today from new Date() normalized to UTC
midnight; following the injection note of the spec, the invocation day is passed in
as the parameter today.  The JavaScript fallbacks x || y on date strings are
modelled with Option.getD; the date strings produced by the GitHub API are never
empty, so truthiness coincides with presence. -/
def calculateStreaks (weeks : List Week) (today : String) : StreakResult :=
  let allDays := (weeks.map (·.contributionDays)).flatten
  let st := finishStreaks allDays (streakLoop true initState allDays.reverse)
  { current := st.currentStreak,
    currentStart := st.currentStreakStart.getD today,
    longest := st.longestStreak,
    longestStart :=
      (st.longestStreakStart.orElse (fun _ => allDays.head?.map (·.date))).getD today,
    longestEnd := st.longestStreakEnd.getD today }

/-- getLast90Days: slice(-90) on the flattened day list, the last ninety days or the
whole list when shorter. -/
def getLast90Days (weeks : List Week) : List ContributionDay :=
  let allDays := (weeks.map (·.contributionDays)).flatten
  allDays.drop (allDays.length - 90)

/-- A civil calendar date, proleptic Gregorian. -/
structure CivilDate where
  year : Nat
  month : Nat
  day : Nat
deriving DecidableEq

/-- Gregorian leap year test. -/
def isLeap (y : Nat) : Bool :=
  y % 4 = 0 && (y % 100 ≠ 0 || y % 400 = 0)

/-- Number of days in a month of a given year. -/
def daysInMonth (y m : Nat) : Nat :=
  if m = 2 then (if isLeap y then 29 else 28)
  else if m = 4 ∨ m = 6 ∨ m = 9 ∨ m = 11 then 30
  else 31

/-- The civil date one day earlier. -/
def prevCivil (c : CivilDate) : CivilDate :=
  if 1 < c.day then ⟨c.year, c.month, c.day - 1⟩
  else if 1 < c.month then ⟨c.year, c.month - 1, daysInMonth c.year (c.month - 1)⟩
  else ⟨c.year - 1, 12, 31⟩

/-- The civil date one day later. -/
def nextCivil (c : CivilDate) : CivilDate :=
  if c.day < daysInMonth c.year c.month then ⟨c.year, c.month, c.day + 1⟩
  else if c.month < 12 then ⟨c.year, c.month + 1, 1⟩
  else ⟨c.year + 1, 1, 1⟩

/-- Split a character list at every occurrence of the separator. -/
def splitOnChar (c : Char) : List Char → List (List Char)
  | [] => [[]]
  | x :: xs =>
      let r := splitOnChar c xs
      if x = c then [] :: r
      else
        match r with
        | [] => [[x]]
        | y :: ys => (x :: y) :: ys

/-- Parse a non-empty all-digit character list as a natural number. -/
def parseNat (l : List Char) : Option Nat :=
  if l.isEmpty then none
  else
    l.foldl
      (fun acc c =>
        match acc with
        | none => none
        | some n => if c.isDigit then some (n * 10 + (c.toNat - 48)) else none)
      (some 0)

/-- Parse an ISO calendar date string YYYY-MM-DD into year, month and day. -/
def parseYMD (s : String) : Option CivilDate :=
  match (splitOnChar (Char.ofNat 45) s.data).map parseNat with
  | [some y, some m, some d] => some ⟨y, m, d⟩
  | _ => none

/-- The abbreviated en-US month names used by toLocaleDateString with the
month short option. -/
def monthAbbr (m : Nat) : String :=
  [ "Jan", "Feb", "Mar", "Apr", "May", "Jun",
    "Jul", "Aug", "Sep", "Oct", "Nov", "Dec" ].getD (m - 1) ""

/-- The en-US rendering with abbreviated month, numeric day and numeric year,
for example Jan 5, 2024. -/
def renderEnUS (c : CivilDate) : String :=
  monthAbbr c.month ++ " " ++ toString c.day ++ ", " ++ toString c.year

/-- The civil date shown by Date.prototype.toLocaleDateString for the instant at UTC
midnight of the given date, on a server whose UTC offset is tzOffsetMinutes.
toLocaleDateString renders the instant in the local zone of the server unless a
timeZone option is passed, and formatDate passes none; real offsets satisfy
-1440 < tz < 1440, so midnight shifted by a negative offset lands on the previous
civil day and a non-negative offset stays on the same day. -/
def localCivilOfUTCMidnight (tzOffsetMinutes : Int) (c : CivilDate) : CivilDate :=
  if tzOffsetMinutes < 0 then prevCivil c else c

/-- formatDate of the source: new Date(dateStr + "T00:00:00Z") pins the instant to
UTC midnight of the calendar date, and toLocaleDateString("en-US", ...) renders it
with abbreviated month, numeric day and numeric year in the local zone of the
server, whose UTC offset in minutes is the explicit parameter here.  A string that
is not a calendar date yields an invalid Date, printed as Invalid Date. -/
def formatDate (tzOffsetMinutes : Int) (dateStr : String) : String :=
  match parseYMD dateStr with
  | none => "Invalid Date"
  | some c => renderEnUS (localCivilOfUTCMidnight tzOffsetMinutes c)

/-- Parse a GitHub ISO timestamp YYYY-MM-DDTHH:MM:SSZ into the civil date and the
second of the day. -/
def parseISOTimestamp (s : String) : Option (CivilDate × Nat) :=
  match splitOnChar (Char.ofNat 84) s.data with
  | [datePart, timePart] =>
      match parseYMD ⟨datePart⟩ with
      | none => none
      | some c =>
          match (splitOnChar (Char.ofNat 58) timePart).map
              (fun l => parseNat (l.filter (fun ch => ch ≠ Char.ofNat 90))) with
          | [some h, some mi, some se] => some (c, h * 3600 + mi * 60 + se)
          | _ => none
  | _ => none

/-- getAccountCreationDate of the source: new Date(createdAt) parses the full UTC
timestamp and toLocaleDateString renders it in the local zone of the server.  The
shown civil day shifts by the floor of (second of day + offset in seconds) / 86400,
which for real offsets is -1, 0 or 1. -/
def getAccountCreationDate (tzOffsetMinutes : Int) (createdAt : String) : String :=
  match parseISOTimestamp createdAt with
  | none => "Invalid Date"
  | some (c, sod) =>
      let shifted : Int := (sod : Int) + tzOffsetMinutes * 60
      if shifted < 0 then renderEnUS (prevCivil c)
      else if 86400 ≤ shifted then renderEnUS (nextCivil c)
      else renderEnUS c

/-- A JavaScript number restricted to the values arising in the chart geometry:
either NaN, a signed infinity or a finite value, the finite values modelled as
exact rationals. -/
inductive JSNum where
  | nan : JSNum
  | inf : Bool → JSNum
  | num : ℚ → JSNum
deriving DecidableEq

/-- JavaScript addition on such values. -/
def jadd : JSNum → JSNum → JSNum
  | JSNum.num a, JSNum.num b => JSNum.num (a + b)
  | JSNum.inf p, JSNum.num _ => JSNum.inf p
  | JSNum.num _, JSNum.inf p => JSNum.inf p
  | JSNum.inf p, JSNum.inf q => if p = q then JSNum.inf p else JSNum.nan
  | _, _ => JSNum.nan

/-- JavaScript multiplication on such values. -/
def jmul : JSNum → JSNum → JSNum
  | JSNum.num a, JSNum.num b => JSNum.num (a * b)
  | JSNum.inf p, JSNum.num b =>
      if b = 0 then JSNum.nan else JSNum.inf (p = (0 < b))
  | JSNum.num a, JSNum.inf p =>
      if a = 0 then JSNum.nan else JSNum.inf (p = (0 < a))
  | JSNum.inf p, JSNum.inf q => JSNum.inf (p = q)
  | _, _ => JSNum.nan

/-- JavaScript division on such values: zero divided by zero is NaN, a nonzero
finite value divided by zero is a signed infinity. -/
def jdiv : JSNum → JSNum → JSNum
  | JSNum.num a, JSNum.num b =>
      if b = 0 then (if a = 0 then JSNum.nan else JSNum.inf (0 < a)) else JSNum.num (a / b)
  | JSNum.num _, JSNum.inf _ => JSNum.num 0
  | JSNum.inf p, JSNum.num b => JSNum.inf (p = (0 ≤ b))
  | _, _ => JSNum.nan

/-- The x coordinate of data point index in the activity chart of generateSVG:
padding + (index / (activityDays.length - 1)) * (graphWidth - 2 * padding).
JavaScript subtraction turns a window of length one into the denominator zero, so
the division is 0 / 0 there. -/
def pointX (padding graphWidth : ℚ) (len index : Nat) : JSNum :=
  jadd (JSNum.num padding)
    (jmul (jdiv (JSNum.num (index : ℚ)) (JSNum.num ((len : ℚ) - 1)))
      (JSNum.num (graphWidth - 2 * padding)))

/-- The y coordinate of a data point: graphHeight - padding -
(count / maxContributions) * (graphHeight - 2 * padding); maxContributions is
clamped to at least one before the division, so it is always finite. -/
def pointY (padding graphHeight : ℚ) (maxContributions : Nat) (count : Nat) : ℚ :=
  graphHeight - padding - ((count : ℚ) / (maxContributions : ℚ)) * (graphHeight - 2 * padding)

/-- Decimal digits of a rational in the interval from zero up to but excluding one,
with bounded precision.  JavaScript prints the shortest decimal that round-trips
through the binary double; for the finite values interpolated into the document we
print the exact decimal expansion truncated at twenty digits, an equivalent
deterministic rendering. -/
def fracDigits : Nat → ℚ → List Char
  | 0, _ => []
  | fuel + 1, q =>
      if q = 0 then []
      else
        let d := ⌊q * 10⌋
        Char.ofNat (48 + d.toNat) :: fracDigits fuel (q * 10 - (d : ℚ))

/-- Deterministic decimal rendering of a rational number. -/
def qRender (q : ℚ) : String :=
  let sign := if q < 0 then "-" else ""
  let aq := |q|
  let ip := (⌊aq⌋).toNat
  let fp := aq - (ip : ℚ)
  if fp = 0 then sign ++ toString ip
  else sign ++ toString ip ++ "." ++ String.mk (fracDigits 20 fp)

/-- Rendering of a JavaScript number as interpolated into a template literal. -/
def jsRender : JSNum → String
  | JSNum.nan => "NaN"
  | JSNum.inf p => if p then "Infinity" else "-Infinity"
  | JSNum.num q => qRender q

/-- The toFixed(2) string of a non-negative percentage value already rounded to two
decimal places: always exactly two fractional digits. -/
def fixed2 (q : ℚ) : String :=
  let k := (round (q * 100)).toNat
  toString (k / 100) ++ "." ++ (if k % 100 < 10 then "0" else "") ++ toString (k % 100)

/-- The stored percentage as it prints: the toFixed(2) string, or NaN when the
total size was zero. -/
def pctString : Option ℚ → String
  | none => "NaN"
  | some q => fixed2 q

/-- parseFloat applied to the stored percentage string: NaN stays NaN, a numeric
string recovers its value. -/
def pctNum : Option ℚ → JSNum
  | none => JSNum.nan
  | some q => JSNum.num q

/-- Helper inserting a comma after every third digit of a reversed digit list. -/
def commaRevAux : Nat → List Char → List Char
  | _, [] => []
  | 0, x :: xs => Char.ofNat 44 :: x :: commaRevAux 2 xs
  | k + 1, x :: xs => x :: commaRevAux k xs

/-- toLocaleString() on a non-negative integer count: digit grouping with commas,
as the default en-US locale of the deployment produces. -/
def groupCommas (n : Nat) : String :=
  String.mk ((commaRevAux 3 (toString n).data.reverse).reverse)

/-- The language bar segment loop of generateSVG: each segment is as wide as
percentage / 100 of the bar and starts where the previous one ended; the running x
offset is a JavaScript number, so a NaN percentage propagates. -/
def barSegments : JSNum → List LangStat → List String
  | _, [] => []
  | currentX, lang :: rest =>
      let segmentWidth := jmul (jdiv (pctNum lang.percentage) (JSNum.num 100)) (JSNum.num 720)
      ("<rect x=\"" ++ jsRender (jadd currentX (JSNum.num 40)) ++
        "\" y=\"495\" width=\"" ++ jsRender segmentWidth ++
        "\" height=\"24\" fill=\"" ++ lang.color ++ "\" rx=\"3\"/>")
        :: barSegments (jadd currentX segmentWidth) rest

/-- One row of the two-column language legend of generateSVG. -/
def languageListItem (index : Nat) (lang : LangStat) : String :=
  let row := index / 2
  let col := index % 2
  let x := if col = 0 then 100 else 450
  let y := 555 + row * 35
  "\n        <circle cx=\"" ++ toString (x - 40) ++ "\" cy=\"" ++ toString (y - 3) ++
    "\" r=\"6\" fill=\"" ++ lang.color ++ "\"/>\n        <text x=\"" ++ toString x ++
    "\" y=\"" ++ toString y ++ "\" class=\"text lang-text\">" ++ lang.name ++
    "</text>\n        <text x=\"" ++ toString (x + 200) ++ "\" y=\"" ++ toString y ++
    "\" class=\"text lang-percentage\">" ++ pctString lang.percentage ++ "%</text>\n      "

/-- The style block of the document, braces written with their character codes. -/
def svgStyle : String :=
  "\n  <style>\n    @media (prefers-color-scheme: dark) \x7b\n      .bg \x7b fill: #0d1117; \x7d\n      .text \x7b fill: #c9d1d9; \x7d\n      .border \x7b stroke: #30363d; \x7d\n      .grid-line \x7b stroke: #21262d; \x7d\n      .axis-label \x7b fill: #8b949e; \x7d\n    \x7d\n    @media (prefers-color-scheme: light) \x7b\n      .bg \x7b fill: #ffffff; \x7d\n      .text \x7b fill: #24292f; \x7d\n      .border \x7b stroke: #d0d7de; \x7d\n      .grid-line \x7b stroke: #e6e9ed; \x7d\n      .axis-label \x7b fill: #57606a; \x7d\n    \x7d\n    .stat-number \x7b font-size: 48px; font-weight: bold; \x7d\n    .stat-label \x7b font-size: 16px; \x7d\n    .stat-detail \x7b font-size: 12px; opacity: 0.8; \x7d\n    .lang-text \x7b font-size: 15px; font-weight: 500; \x7d\n    .lang-percentage \x7b font-size: 15px; opacity: 0.8; \x7d\n    .section-title \x7b font-size: 18px; font-weight: 600; \x7d\n    .accent \x7b fill: #f85149; \x7d\n    .blue \x7b fill: #58a6ff; \x7d\n    .graph-line \x7b stroke: #3fb950; stroke-width: 2.5; fill: none; \x7d\n    .graph-area \x7b fill: #3fb95020; \x7d\n    .grid-line \x7b stroke-width: 1; opacity: 0.3; \x7d\n    .axis-label \x7b font-size: 11px; \x7d\n  </style>\n  "

/-- generateSVG.  The server UTC offset consumed implicitly by the date rendering
methods is the explicit first parameter; everything else follows the source line by
line: chart geometry, headline numbers with date captions, language bar and legend,
assembled into one fixed-canvas document and trimmed. -/
def generateSVG (tzOffsetMinutes : Int) (totalContributions : Nat)
    (streaks : StreakResult) (activityDays : List ContributionDay)
    (languages : List LangStat) (createdAt : String) : String :=
  let width : Nat := 800
  let height : Nat := 680
  let graphWidth : Nat := 720
  let graphHeight : Nat := 120
  let padding : Nat := 30
  let maxContributions : Nat := (activityDays.map (·.contributionCount)).foldl max 1
  let points : List String :=
    activityDays.enum.map fun p =>
      jsRender (pointX (padding : ℚ) (graphWidth : ℚ) activityDays.length p.1) ++ "," ++
        qRender (pointY (padding : ℚ) (graphHeight : ℚ) maxContributions p.2.contributionCount)
  let linePath := "M " ++ String.intercalate " L " points
  let areaPath := linePath ++ " L " ++ toString (graphWidth - padding) ++ "," ++
    toString (graphHeight - padding) ++ " L " ++ toString padding ++ "," ++
    toString (graphHeight - padding) ++ " Z"
  let gridLines : List String :=
    (List.range 5).map fun i =>
      "<line x1=\"" ++ toString padding ++ "\" y1=\"" ++
        qRender ((padding : ℚ) + ((i : ℚ) * ((graphHeight : ℚ) - 2 * (padding : ℚ))) / 4) ++
        "\" x2=\"" ++ toString (graphWidth - padding) ++ "\" y2=\"" ++
        qRender ((padding : ℚ) + ((i : ℚ) * ((graphHeight : ℚ) - 2 * (padding : ℚ))) / 4) ++
        "\" class=\"grid-line\"/>"
  let accountCreated := getAccountCreationDate tzOffsetMinutes createdAt
  let longestStartDate := formatDate tzOffsetMinutes streaks.longestStart
  let longestEndDate := formatDate tzOffsetMinutes streaks.longestEnd
  let currentStartDate := formatDate tzOffsetMinutes streaks.currentStart
  let languageBarSegments := String.join (barSegments (JSNum.num 0) languages)
  let languageList := String.join (languages.enum.map fun p => languageListItem p.1 p.2)
  ("\n<svg width=\"" ++ toString width ++ "\" height=\"" ++ toString height ++
    "\" xmlns=\"http://www.w3.org/2000/svg\">" ++ svgStyle ++
    "\n  <!-- Background -->\n  <rect width=\"" ++ toString width ++ "\" height=\"" ++
    toString height ++ "\" class=\"bg\" rx=\"10\"/>\n  \n  <!-- Stats Container -->\n  " ++
    "<rect x=\"10\" y=\"10\" width=\"780\" height=\"140\" fill=\"none\" class=\"border\" stroke-width=\"2\" rx=\"8\"/>\n  \n  " ++
    "<!-- Total Contributions -->\n  <text x=\"140\" y=\"75\" class=\"text stat-number\" text-anchor=\"middle\">" ++
    groupCommas totalContributions ++ "</text>\n  " ++
    "<text x=\"140\" y=\"100\" class=\"accent stat-label\" text-anchor=\"middle\">Total Contributions</text>\n  " ++
    "<text x=\"140\" y=\"125\" class=\"text stat-detail\" text-anchor=\"middle\">" ++
    accountCreated ++ " - Present</text>\n  \n  " ++
    "<!-- Current Streak with flame icon -->\n  <circle cx=\"400\" cy=\"65\" r=\"42\" class=\"accent\" opacity=\"0.15\"/>\n  " ++
    "<path d=\"M 400 42 Q 400 37 405 37 L 405 32 Q 405 27 400 27 Q 395 27 395 32 L 395 37 Q 395 37 400 42 Z\" class=\"accent\" transform=\"translate(0, 5)\"/>\n  " ++
    "<text x=\"400\" y=\"75\" class=\"text stat-number\" text-anchor=\"middle\">" ++
    toString streaks.current ++ "</text>\n  " ++
    "<text x=\"400\" y=\"100\" class=\"blue stat-label\" text-anchor=\"middle\">Current Streak</text>\n  " ++
    "<text x=\"400\" y=\"125\" class=\"text stat-detail\" text-anchor=\"middle\">" ++
    currentStartDate ++ " - Present</text>\n  \n  " ++
    "<!-- Longest Streak -->\n  <text x=\"660\" y=\"75\" class=\"text stat-number\" text-anchor=\"middle\">" ++
    toString streaks.longest ++ "</text>\n  " ++
    "<text x=\"660\" y=\"100\" class=\"accent stat-label\" text-anchor=\"middle\">Longest Streak</text>\n  " ++
    "<text x=\"660\" y=\"125\" class=\"text stat-detail\" text-anchor=\"middle\">" ++
    longestStartDate ++ " - " ++ longestEndDate ++ "</text>\n  \n  " ++
    "<!-- Dividers -->\n  <line x1=\"270\" y1=\"30\" x2=\"270\" y2=\"130\" class=\"border\" stroke-width=\"2\"/>\n  " ++
    "<line x1=\"530\" y1=\"30\" x2=\"530\" y2=\"130\" class=\"border\" stroke-width=\"2\"/>\n  \n  " ++
    "<!-- Activity Graph Container -->\n  <rect x=\"10\" y=\"170\" width=\"780\" height=\"170\" fill=\"none\" class=\"border\" stroke-width=\"2\" rx=\"8\"/>\n  \n  " ++
    "<!-- Activity Graph Title -->\n  <text x=\"30\" y=\"195\" class=\"text section-title\">Contribution Activity (Last 90 Days)</text>\n  \n  " ++
    "<!-- Activity Graph -->\n  <g transform=\"translate(30, 200)\">\n    <!-- Grid lines -->\n    " ++
    String.join gridLines ++
    "\n    \n    <!-- Graph area and line -->\n    <path d=\"" ++ areaPath ++
    "\" class=\"graph-area\"/>\n    <path d=\"" ++ linePath ++ "\" class=\"graph-line\"/>\n    \n    " ++
    "<!-- Axes -->\n    <line x1=\"" ++ toString padding ++ "\" y1=\"" ++
    toString (graphHeight - padding) ++ "\" x2=\"" ++ toString (graphWidth - padding) ++
    "\" y2=\"" ++ toString (graphHeight - padding) ++ "\" class=\"border\" stroke-width=\"1.5\"/>\n    " ++
    "<line x1=\"" ++ toString padding ++ "\" y1=\"" ++ toString padding ++ "\" x2=\"" ++
    toString padding ++ "\" y2=\"" ++ toString (graphHeight - padding) ++
    "\" class=\"border\" stroke-width=\"1.5\"/>\n    \n    " ++
    "<!-- Axis labels -->\n    <text x=\"" ++ toString padding ++ "\" y=\"" ++
    toString (graphHeight - 5) ++ "\" class=\"axis-label\" text-anchor=\"start\">90 days ago</text>\n    " ++
    "<text x=\"" ++ toString (graphWidth - padding) ++ "\" y=\"" ++ toString (graphHeight - 5) ++
    "\" class=\"axis-label\" text-anchor=\"end\">Today</text>\n    " ++
    "<text x=\"" ++ toString (padding - 10) ++ "\" y=\"" ++ toString (padding + 5) ++
    "\" class=\"axis-label\" text-anchor=\"end\">" ++ toString maxContributions ++ "</text>\n    " ++
    "<text x=\"" ++ toString (padding - 10) ++ "\" y=\"" ++ toString (graphHeight - padding) ++
    "\" class=\"axis-label\" text-anchor=\"end\">0</text>\n  </g>\n  \n  " ++
    "<!-- Languages Container -->\n  <rect x=\"10\" y=\"360\" width=\"780\" height=\"300\" fill=\"none\" class=\"border\" stroke-width=\"2\" rx=\"8\"/>\n  \n  " ++
    "<!-- Languages Title -->\n  <text x=\"30\" y=\"390\" class=\"accent section-title\">Most Used Languages</text>\n  \n  " ++
    "<!-- Language Bar -->\n  <g>\n    " ++ languageBarSegments ++ "\n  </g>\n  \n  " ++
    "<!-- Language List -->\n  <g>\n    " ++ languageList ++ "\n  </g>\n</svg>\n  ").trim

/-- The shape fetchGitHubData resolves with: the calendar, the owned repositories
and the account creation timestamp. -/
structure FetchData where
  calendar : ContributionCalendar
  repositories : List Repository
  createdAt : String
deriving DecidableEq

/-- The observable response of the request handler: status code, the Content-Type
and Cache-Control headers when set, and the body text. -/
structure HttpResponse where
  status : Nat
  contentType : Option String
  cacheControl : Option String
  body : String
deriving DecidableEq

/-- The exported request handler of the module.  The username query parameter is an
Option, and the JavaScript truthiness test rejects both an absent and an empty
value.  The awaited fetchGitHubData call is modelled by an Except value: its error
carries the message of whatever the try block threw (transport failure, non-success
status, GraphQL error payload, malformed data), which the catch turns into a 500
response; analysis and rendering of well-shaped data are total.  The wall-clock day
and the server UTC offset the pipeline reads from the environment enter as
explicit parameters. -/
def handler (username : Option String) (fetched : Except String FetchData)
    (today : String) (tzOffsetMinutes : Int) : HttpResponse :=
  if username = none ∨ username = some "" then
    ⟨400, none, none, "Username parameter is required"⟩
  else
    match fetched with
    | Except.error msg => ⟨500, none, none, "Error: " ++ msg⟩
    | Except.ok data =>
        let streaks := calculateStreaks data.calendar.weeks today
        let activityDays := getLast90Days data.calendar.weeks
        let languages := calculateLanguageStats data.repositories
        let svg := generateSVG tzOffsetMinutes data.calendar.totalContributions streaks
          activityDays languages data.createdAt
        ⟨200, some "image/svg+xml", some "public, max-age=14400", svg⟩

/-- Modelled from the spec: the current streak of section 4.1 is the length of the
backward run of days with positive count ending at the most recent day of the
flattened chronological sequence.  Defined only for comparison with the behaviour
of calculateStreaks. -/
def specCurrentStreak (days : List ContributionDay) : Nat :=
  (days.reverse.takeWhile (fun d => decide (0 < d.contributionCount))).length

end GitHubStats

namespace GitHubStats

example :
    calculateLanguageStats
      [⟨⟨[⟨800, ⟨"Go", none⟩⟩]⟩⟩, ⟨⟨[⟨200, ⟨"Go", none⟩⟩, ⟨1000, ⟨"Rust", some "#dea584"⟩⟩]⟩⟩] =
      [⟨"Go", "#858585", some 50, 1000⟩, ⟨"Rust", "#dea584", some 50, 1000⟩] := by
  simp [calculateLanguageStats, langStats, buildLanguageMap, addEdge, lookupEntry, addSize,
    jsOrDefault, totalSizeOf, mkStat, sortDesc, insertDesc, round2]
  norm_num

example :
    calculateStreaks [⟨[⟨"a", 1⟩, ⟨"b", 1⟩, ⟨"c", 1⟩, ⟨"d", 0⟩]⟩] "t" =
      ⟨0, "t", 3, "a", "c"⟩ := by decide

example : getAccountCreationDate 0 "2014-01-05T10:00:00Z" = "Jan 5, 2014" := by decide

example : getAccountCreationDate (-660) "2014-01-05T10:00:00Z" = "Jan 4, 2014" := by decide

/-- C1: the claim says the current streak is the length of the consecutive run of
positive days ending at the most recent day.  On the calendar with counts
1, 1, 0, 1 that run has length one, but calculateStreaks reports two: the
post-loop assignment copies the final tempStreak, which at that point holds the
run at the chronological start of the calendar, and the in-loop assignment that
was meant to capture the recent run is guarded by an unsatisfiable condition. -/
theorem c1_current_streak_divergence :
    (calculateStreaks
        [⟨[⟨"2024-01-01", 1⟩, ⟨"2024-01-02", 1⟩, ⟨"2024-01-03", 0⟩, ⟨"2024-01-04", 1⟩]⟩]
        "2024-01-04").current = 2 ∧
    specCurrentStreak
        (([⟨[⟨"2024-01-01", 1⟩, ⟨"2024-01-02", 1⟩, ⟨"2024-01-03", 0⟩, ⟨"2024-01-04", 1⟩]⟩] :
            List Week).map (·.contributionDays)).flatten = 1 := by
  decide

/-- C2: for a one-day activity window the x interpolation evaluates
0 / (1 - 1) = NaN, so the single point is not placed at the left inner edge
x = 30; the division by zero the claim rules out does happen. -/
theorem c2_single_point_nan :
    pointX 30 720 1 0 = JSNum.nan ∧ pointX 30 720 1 0 ≠ JSNum.num 30 := by
  have h : pointX 30 720 1 0 = JSNum.nan := by
    norm_num [pointX, jdiv, jmul, jadd]
  exact ⟨h, by simp [h]⟩

/-- C3: the date caption of a fixed calendar date depends on the server UTC
offset: a server five hours west of UTC renders the day before, a UTC server
renders the date itself, so the captions are not independent of the server
timezone configuration. -/
theorem c3_caption_timezone_dependence :
    formatDate (-300) "2024-01-05" = "Jan 4, 2024" ∧
    formatDate 0 "2024-01-05" = "Jan 5, 2024" := by
  decide

/-- C4 counterexample: on the all-zero one-day calendar the longest streak start
does default to the first available date, but the longest streak end defaults to
today, not to the first available date as the claim states. -/
theorem c4_longest_end_counterexample :
    (calculateStreaks [⟨[⟨"2024-01-01", 0⟩]⟩] "2024-06-15").longestStart = "2024-01-01" ∧
    (calculateStreaks [⟨[⟨"2024-01-01", 0⟩]⟩] "2024-06-15").longestEnd = "2024-06-15" ∧
    (calculateStreaks [⟨[⟨"2024-01-01", 0⟩]⟩] "2024-06-15").longestEnd ≠ "2024-01-01" := by
  decide

theorem streakStep_zero_init (b : Bool) (d : ContributionDay)
    (h : d.contributionCount = 0) : streakStep b initState d = initState := by
  simp [streakStep, initState, h]

theorem streakLoop_all_zero (days : List ContributionDay) (b : Bool)
    (h : ∀ d ∈ days, d.contributionCount = 0) : streakLoop b initState days = initState := by
  induction days generalizing b with
  | nil => rfl
  | cons d rest ih =>
      have hd : d.contributionCount = 0 := h d (List.mem_cons_self d rest)
      simp only [streakLoop, streakStep_zero_init b d hd]
      exact ih false (fun x hx => h x (List.mem_cons_of_mem d hx))

/-- C4 as amended: on an all-zero calendar both streaks are zero, the current and
longest start dates fall back as the claim says, but the longest end date falls
back to today, never to the first available date. -/
theorem c4_all_zero_streaks (weeks : List Week) (today : String)
    (h : ∀ d ∈ (weeks.map (·.contributionDays)).flatten, d.contributionCount = 0) :
    calculateStreaks weeks today =
      ⟨0, today, 0,
        (((weeks.map (·.contributionDays)).flatten.head?.map (·.date)).getD today), today⟩ := by
  simp only [calculateStreaks]
  have hrev : ∀ d ∈ ((weeks.map (·.contributionDays)).flatten).reverse,
      d.contributionCount = 0 := by
    intro d hd
    exact h d (List.mem_reverse.mp hd)
  rw [streakLoop_all_zero _ _ hrev]
  cases hl : ((weeks.map (·.contributionDays)).flatten).getLast? with
  | none => simp [finishStreaks, hl, initState, Option.orElse]
  | some d =>
      have hmem : d ∈ (weeks.map (·.contributionDays)).flatten := by
        obtain ⟨hne, heq⟩ := List.mem_getLast?_eq_getLast (Option.mem_def.mpr hl)
        exact heq ▸ List.getLast_mem hne
      have hd : d.contributionCount = 0 := h d hmem
      simp [finishStreaks, hl, hd, initState, Option.orElse]

/-- C4 witness: the amended statement applied to a concrete two-day all-zero
calendar. -/
theorem c4_all_zero_streaks_witness :
    (∀ d ∈ (([⟨[⟨"2024-01-01", 0⟩, ⟨"2024-01-02", 0⟩]⟩] : List Week).map
        (·.contributionDays)).flatten, d.contributionCount = 0) ∧
    calculateStreaks [⟨[⟨"2024-01-01", 0⟩, ⟨"2024-01-02", 0⟩]⟩] "2024-06-15" =
      ⟨0, "2024-06-15", 0, "2024-01-01", "2024-06-15"⟩ := by
  refine ⟨by decide, ?_⟩
  have := c4_all_zero_streaks [⟨[⟨"2024-01-01", 0⟩, ⟨"2024-01-02", 0⟩]⟩] "2024-06-15"
    (by decide)
  simpa using this

theorem streakStep_inv (b : Bool) (st : StreakState) (d : ContributionDay)
    (h1 : st.tempStreak ≤ st.longestStreak) (h2 : st.currentStreak ≤ st.longestStreak) :
    (streakStep b st d).tempStreak ≤ (streakStep b st d).longestStreak ∧
    (streakStep b st d).currentStreak ≤ (streakStep b st d).longestStreak := by
  simp only [streakStep]
  split_ifs <;> simp <;> omega

theorem streakLoop_inv (days : List ContributionDay) (b : Bool) (st : StreakState)
    (h1 : st.tempStreak ≤ st.longestStreak) (h2 : st.currentStreak ≤ st.longestStreak) :
    (streakLoop b st days).tempStreak ≤ (streakLoop b st days).longestStreak ∧
    (streakLoop b st days).currentStreak ≤ (streakLoop b st days).longestStreak := by
  induction days generalizing b st with
  | nil => exact ⟨h1, h2⟩
  | cons d rest ih =>
      obtain ⟨g1, g2⟩ := streakStep_inv b st d h1 h2
      exact ih false (streakStep b st d) g1 g2

/-- C8: the longest streak calculateStreaks returns is never smaller than the
current streak it returns: the longest counter tracks the maximum the running
counter ever reaches, and the current streak is always a copy of some value of
the running counter. -/
theorem c8_longest_ge_current (weeks : List Week) (today : String) :
    (calculateStreaks weeks today).current ≤ (calculateStreaks weeks today).longest := by
  obtain ⟨h1, h2⟩ := streakLoop_inv
    ((weeks.map (·.contributionDays)).flatten).reverse true initState
    (by simp [initState]) (by simp [initState])
  show (finishStreaks ((weeks.map (·.contributionDays)).flatten)
      (streakLoop true initState ((weeks.map (·.contributionDays)).flatten).reverse)).currentStreak ≤
    (finishStreaks ((weeks.map (·.contributionDays)).flatten)
      (streakLoop true initState ((weeks.map (·.contributionDays)).flatten).reverse)).longestStreak
  cases hl : ((weeks.map (·.contributionDays)).flatten).getLast? with
  | none => simpa [finishStreaks, hl] using h2
  | some d =>
      by_cases hd : 0 < d.contributionCount
      · simpa [finishStreaks, hl, hd] using h1
      · simpa [finishStreaks, hl, hd] using h2

theorem streakStep_false_current (st : StreakState) (d : ContributionDay) :
    (streakStep false st d).currentStreak = st.currentStreak ∧
    (streakStep false st d).currentStreakStart = st.currentStreakStart := by
  simp only [streakStep]
  split_ifs <;> simp_all

theorem streakLoop_false_current (days : List ContributionDay) (st : StreakState) :
    (streakLoop false st days).currentStreak = st.currentStreak ∧
    (streakLoop false st days).currentStreakStart = st.currentStreakStart := by
  induction days generalizing st with
  | nil => exact ⟨rfl, rfl⟩
  | cons d rest ih =>
      obtain ⟨g1, g2⟩ := streakStep_false_current st d
      obtain ⟨i1, i2⟩ := ih (streakStep false st d)
      exact ⟨by rw [streakLoop, i1, g1], by rw [streakLoop, i2, g2]⟩

theorem streakStep_true_init (d : ContributionDay) :
    (streakStep true initState d).currentStreak = 0 ∧
    (streakStep true initState d).currentStreakStart = none := by
  simp only [streakStep, initState]
  split_ifs <;> simp_all

/-- C10: whenever the most recent day of the calendar has count zero the returned
current streak is zero and its start date is the invocation day itself, because
the start is only ever assigned inside branches that cannot run in that case and
the null fallback substitutes today. -/
theorem c10_zero_day_current_today (weeks : List Week) (today : String)
    (d : ContributionDay)
    (hlast : ((weeks.map (·.contributionDays)).flatten).getLast? = some d)
    (hzero : d.contributionCount = 0) :
    (calculateStreaks weeks today).current = 0 ∧
    (calculateStreaks weeks today).currentStart = today := by
  simp only [calculateStreaks]
  have hloop :
      (streakLoop true initState ((weeks.map (·.contributionDays)).flatten).reverse).currentStreak = 0 ∧
      (streakLoop true initState ((weeks.map (·.contributionDays)).flatten).reverse).currentStreakStart = none := by
    cases hr : ((weeks.map (·.contributionDays)).flatten).reverse with
    | nil => exact ⟨rfl, rfl⟩
    | cons a rest =>
        obtain ⟨g1, g2⟩ := streakStep_true_init a
        obtain ⟨i1, i2⟩ := streakLoop_false_current rest (streakStep true initState a)
        exact ⟨by rw [streakLoop, i1, g1], by rw [streakLoop, i2, g2]⟩
  obtain ⟨h1, h2⟩ := hloop
  simp [finishStreaks, hlast, hzero, h1, h2]

/-- C10 witness: a calendar with a past streak whose most recent day is zero. -/
theorem c10_zero_day_current_today_witness :
    (calculateStreaks [⟨[⟨"2024-01-01", 3⟩, ⟨"2024-01-02", 0⟩]⟩] "2024-06-15").current = 0 ∧
    (calculateStreaks [⟨[⟨"2024-01-01", 3⟩, ⟨"2024-01-02", 0⟩]⟩] "2024-06-15").currentStart =
      "2024-06-15" := by
  exact c10_zero_day_current_today [⟨[⟨"2024-01-01", 3⟩, ⟨"2024-01-02", 0⟩]⟩] "2024-06-15"
    ⟨"2024-01-02", 0⟩ (by decide) (by decide)

theorem buildLanguageMap_eq_foldl (repositories : List Repository) :
    buildLanguageMap repositories = (allEdges repositories).foldl addEdge [] := by
  suffices h : ∀ (rs : List Repository) (m : List LangEntry),
      rs.foldl (fun m repo => repo.languages.edges.foldl addEdge m) m =
        ((rs.map (·.languages.edges)).flatten).foldl addEdge m by
    exact h repositories []
  intro rs
  induction rs with
  | nil => intro m; rfl
  | cons r rest ih =>
      intro m
      simp only [List.foldl_cons, List.map_cons, List.flatten_cons, List.foldl_append]
      exact ih (r.languages.edges.foldl addEdge m)

theorem lookupEntry_addSize_self (m : List LangEntry) (name : String) (s : Nat)
    (x : LangEntry) (h : lookupEntry m name = some x) :
    lookupEntry (addSize m name s) name = some ⟨x.name, x.size + s, x.color⟩ := by
  induction m with
  | nil => simp [lookupEntry] at h
  | cons y ys ih =>
      by_cases hy : y.name = name
      · simp only [lookupEntry, if_pos hy] at h
        cases h
        simp [addSize, lookupEntry, hy]
      · simp only [lookupEntry, if_neg hy] at h
        simp [addSize, lookupEntry, hy, ih h]

theorem lookupEntry_addSize_ne (m : List LangEntry) (n name : String) (s : Nat)
    (h : n ≠ name) : lookupEntry (addSize m n s) name = lookupEntry m name := by
  induction m with
  | nil => rfl
  | cons y ys ih =>
      by_cases hy : y.name = n
      · have hyn : ¬y.name = name := fun hc => h (hy ▸ hc)
        simp [addSize, lookupEntry, hy, hyn, h]
      · by_cases hyname : y.name = name
        · simp [addSize, lookupEntry, hy, hyname, Ne.symm h]
        · simp [addSize, lookupEntry, hy, hyname, ih]

theorem lookupEntry_append (m l : List LangEntry) (name : String) :
    lookupEntry (m ++ l) name =
      match lookupEntry m name with
      | some x => some x
      | none => lookupEntry l name := by
  induction m with
  | nil => rfl
  | cons y ys ih =>
      by_cases hy : y.name = name
      · simp [lookupEntry, hy]
      · simp [lookupEntry, hy, ih]

theorem foldl_addEdge_lookup (es : List LanguageEdge) (m : List LangEntry) (name : String) :
    lookupEntry (es.foldl addEdge m) name =
      match lookupEntry m name with
      | some x =>
          some ⟨x.name,
            x.size + ((es.filter (fun e => e.node.name == name)).map (·.size)).sum, x.color⟩
      | none =>
          ((es.filter (fun e => e.node.name == name)).head?).map
            (fun e =>
              ⟨name, ((es.filter (fun e => e.node.name == name)).map (·.size)).sum,
                jsOrDefault e.node.color "#858585"⟩) := by
  induction es generalizing m with
  | nil =>
      cases hm : lookupEntry m name with
      | none => simp [hm]
      | some x => simp [hm]
  | cons e rest ih =>
      simp only [List.foldl_cons]
      rw [ih (addEdge m e)]
      by_cases hcase : e.node.name = name
      · cases hm : lookupEntry m name with
        | some x =>
            have hsome : (lookupEntry m e.node.name).isSome := by
              rw [hcase, hm]; rfl
            have hm' : lookupEntry (addEdge m e) name =
                some ⟨x.name, x.size + e.size, x.color⟩ := by
              rw [addEdge, if_pos hsome, hcase]
              exact lookupEntry_addSize_self m name e.size x hm
            rw [hm']
            simp [List.filter_cons, hcase, Nat.add_assoc]
        | none =>
            have hnone : ¬(lookupEntry m e.node.name).isSome := by
              rw [hcase, hm]; simp
            have hm' : lookupEntry (addEdge m e) name =
                some ⟨e.node.name, e.size, jsOrDefault e.node.color "#858585"⟩ := by
              rw [addEdge, if_neg hnone, lookupEntry_append, hm]
              simp [lookupEntry, hcase]
            rw [hm']
            simp [List.filter_cons, hcase]
      · have hm' : lookupEntry (addEdge m e) name = lookupEntry m name := by
          rw [addEdge]
          by_cases hsome : (lookupEntry m e.node.name).isSome
          · rw [if_pos hsome]
            exact lookupEntry_addSize_ne m e.node.name name e.size hcase
          · rw [if_neg hsome, lookupEntry_append]
            cases hm : lookupEntry m name with
            | some x => simp
            | none => simp [lookupEntry, hcase]
        rw [hm']
        have hfilter : (e :: rest).filter (fun e => e.node.name == name) =
            rest.filter (fun e => e.node.name == name) := by
          simp [List.filter_cons, hcase]
        rw [hfilter]

/-- C7: for every repository sequence and language name, the accumulated entry for
that name holds the sum of the sizes of all edges carrying the name, and its color
is the color of the first such edge in traversal order (defaulted to the neutral
gray when absent there), never overwritten by later edges. -/
theorem c7_language_accumulation (repositories : List Repository) (name : String) :
    lookupEntry (buildLanguageMap repositories) name =
      (((allEdges repositories).filter (fun e => e.node.name == name)).head?).map
        (fun e =>
          ⟨name, (((allEdges repositories).filter (fun e => e.node.name == name)).map
              (·.size)).sum,
            jsOrDefault e.node.color "#858585"⟩) := by
  rw [buildLanguageMap_eq_foldl]
  have h := foldl_addEdge_lookup (allEdges repositories) [] name
  simpa using h

theorem mem_insertDesc (x : LangStat) (l : List LangStat) (a : LangStat) :
    a ∈ insertDesc x l ↔ a = x ∨ a ∈ l := by
  induction l with
  | nil => simp [insertDesc]
  | cons y ys ih =>
      by_cases hlt : x.size < y.size
      · simp only [insertDesc, if_pos hlt, List.mem_cons, ih]
        tauto
      · simp only [insertDesc, if_neg hlt, List.mem_cons]

theorem insertDesc_perm (x : LangStat) (l : List LangStat) :
    List.Perm (insertDesc x l) (x :: l) := by
  induction l with
  | nil => exact List.Perm.refl [x]
  | cons y ys ih =>
      by_cases hlt : x.size < y.size
      · simp only [insertDesc, if_pos hlt]
        exact (ih.cons y).trans (List.Perm.swap x y ys)
      · simp only [insertDesc, if_neg hlt]
        exact List.Perm.refl _

theorem sortDesc_perm (l : List LangStat) : List.Perm (sortDesc l) l := by
  induction l with
  | nil => exact List.Perm.refl []
  | cons x xs ih => exact (insertDesc_perm x (sortDesc xs)).trans (ih.cons x)

theorem pairwise_insertDesc (x : LangStat) (l : List LangStat)
    (h : l.Pairwise (fun a b => b.size ≤ a.size)) :
    (insertDesc x l).Pairwise (fun a b => b.size ≤ a.size) := by
  induction l with
  | nil => simp [insertDesc]
  | cons y ys ih =>
      rw [List.pairwise_cons] at h
      obtain ⟨hy, hys⟩ := h
      by_cases hlt : x.size < y.size
      · simp only [insertDesc, if_pos hlt]
        rw [List.pairwise_cons]
        refine ⟨?_, ih hys⟩
        intro a ha
        rcases (mem_insertDesc x ys a).mp ha with rfl | hmem
        · exact Nat.le_of_lt hlt
        · exact hy a hmem
      · simp only [insertDesc, if_neg hlt]
        rw [List.pairwise_cons]
        refine ⟨?_, List.pairwise_cons.mpr ⟨hy, hys⟩⟩
        intro a ha
        rcases List.mem_cons.mp ha with rfl | hmem
        · omega
        · exact Nat.le_trans (hy a hmem) (by omega)

theorem sortDesc_sorted (l : List LangStat) :
    (sortDesc l).Pairwise (fun a b => b.size ≤ a.size) := by
  induction l with
  | nil => simp [sortDesc]
  | cons x xs ih => exact pairwise_insertDesc x (sortDesc xs) ih

theorem filter_insertDesc (x : LangStat) (l : List LangStat) (s : Nat) :
    (insertDesc x l).filter (fun e => e.size == s) =
      if x.size = s then x :: l.filter (fun e => e.size == s)
      else l.filter (fun e => e.size == s) := by
  induction l with
  | nil =>
      by_cases hx : x.size = s <;> simp [insertDesc, List.filter_cons, hx]
  | cons y ys ih =>
      by_cases hlt : x.size < y.size
      · simp only [insertDesc, if_pos hlt, List.filter_cons, ih]
        by_cases hy : y.size = s
        · have hx : ¬x.size = s := by omega
          simp [hy, hx]
        · by_cases hx : x.size = s <;> simp [hy, hx]
      · simp only [insertDesc, if_neg hlt, List.filter_cons]
        by_cases hx : x.size = s <;> by_cases hy : y.size = s <;> simp [hx, hy]

theorem filter_sortDesc (l : List LangStat) (s : Nat) :
    (sortDesc l).filter (fun e => e.size == s) = l.filter (fun e => e.size == s) := by
  induction l with
  | nil => rfl
  | cons x xs ih =>
      by_cases hx : x.size = s <;>
        simp [sortDesc, filter_insertDesc, List.filter_cons, hx, ih]

theorem mem_calculateLanguageStats (repositories : List Repository) (e : LangStat)
    (h : e ∈ calculateLanguageStats repositories) :
    ∃ x ∈ buildLanguageMap repositories,
      e = mkStat (totalSizeOf (buildLanguageMap repositories)) x := by
  have h1 : e ∈ sortDesc (langStats repositories) :=
    List.mem_of_mem_take h
  have h2 : e ∈ langStats repositories :=
    (sortDesc_perm (langStats repositories)).mem_iff.mp h1
  simp only [langStats, List.mem_map] at h2
  obtain ⟨x, hx, rfl⟩ := h2
  exact ⟨x, hx, rfl⟩

/-- C6: the returned language list is sorted non-increasingly by accumulated size,
has at most five entries, every returned percentage is computed against the full
total over all languages before truncation and rounded to two decimals, and the
sort is stable: for every size value, the entries of that size appear in the same
order as in the accumulation (first-seen) order. -/
theorem c6_language_ranking (repositories : List Repository) :
    (calculateLanguageStats repositories).Pairwise (fun a b => b.size ≤ a.size) ∧
    (calculateLanguageStats repositories).length ≤ 5 ∧
    (∀ e ∈ calculateLanguageStats repositories,
      e.percentage =
        if totalSizeOf (buildLanguageMap repositories) = 0 then none
        else
          some (round2 (((e.size : ℚ) /
            ((totalSizeOf (buildLanguageMap repositories) : ℕ) : ℚ)) * 100))) ∧
    (∀ s : Nat,
      (sortDesc (langStats repositories)).filter (fun e => e.size == s) =
        (langStats repositories).filter (fun e => e.size == s)) := by
  refine ⟨?_, ?_, ?_, ?_⟩
  · exact ((sortDesc_sorted (langStats repositories)).sublist
      (List.take_sublist 5 _))
  · exact List.length_take_le 5 _
  · intro e he
    obtain ⟨x, _, rfl⟩ := mem_calculateLanguageStats repositories e he
    simp [mkStat]
  · exact filter_sortDesc (langStats repositories)

/-- C6 witness: the ranking applied to two repositories with a shared language;
the Go entry is present and its percentage is the rounded share of the full
total. -/
theorem c6_language_ranking_witness :
    ((⟨"Go", "#858585", some 50, 1000⟩ : LangStat) ∈
      calculateLanguageStats
        [⟨⟨[⟨800, ⟨"Go", none⟩⟩]⟩⟩,
          ⟨⟨[⟨200, ⟨"Go", none⟩⟩, ⟨1000, ⟨"Rust", some "#dea584"⟩⟩]⟩⟩]) ∧
    (⟨"Go", "#858585", some 50, 1000⟩ : LangStat).percentage =
      (if totalSizeOf (buildLanguageMap
          [⟨⟨[⟨800, ⟨"Go", none⟩⟩]⟩⟩,
            ⟨⟨[⟨200, ⟨"Go", none⟩⟩, ⟨1000, ⟨"Rust", some "#dea584"⟩⟩]⟩⟩]) = 0 then none
        else
          some (round2 ((((⟨"Go", "#858585", some 50, 1000⟩ : LangStat).size : ℚ) /
            ((totalSizeOf (buildLanguageMap
              [⟨⟨[⟨800, ⟨"Go", none⟩⟩]⟩⟩,
                ⟨⟨[⟨200, ⟨"Go", none⟩⟩, ⟨1000, ⟨"Rust", some "#dea584"⟩⟩]⟩⟩]) : ℕ) : ℚ)) *
            100))) := by
  have hmem : (⟨"Go", "#858585", some 50, 1000⟩ : LangStat) ∈
      calculateLanguageStats
        [⟨⟨[⟨800, ⟨"Go", none⟩⟩]⟩⟩,
          ⟨⟨[⟨200, ⟨"Go", none⟩⟩, ⟨1000, ⟨"Rust", some "#dea584"⟩⟩]⟩⟩] := by
    have heq :
        calculateLanguageStats
          [⟨⟨[⟨800, ⟨"Go", none⟩⟩]⟩⟩,
            ⟨⟨[⟨200, ⟨"Go", none⟩⟩, ⟨1000, ⟨"Rust", some "#dea584"⟩⟩]⟩⟩] =
          [⟨"Go", "#858585", some 50, 1000⟩, ⟨"Rust", "#dea584", some 50, 1000⟩] := by
      simp [calculateLanguageStats, langStats, buildLanguageMap, addEdge, lookupEntry,
        addSize, jsOrDefault, totalSizeOf, mkStat, sortDesc, insertDesc, round2]
      norm_num
    rw [heq]
    simp
  exact ⟨hmem, (c6_language_ranking _).2.2.1 _ hmem⟩

theorem addEdge_ne_nil (m : List LangEntry) (e : LanguageEdge) : addEdge m e ≠ [] := by
  cases m with
  | nil => simp [addEdge, lookupEntry]
  | cons y ys =>
      by_cases h : (lookupEntry (y :: ys) e.node.name).isSome
      · rw [addEdge, if_pos h, addSize]
        split_ifs <;> simp
      · rw [addEdge, if_neg h]
        simp

theorem foldl_addEdge_ne_nil (es : List LanguageEdge) (m : List LangEntry)
    (hm : m ≠ []) : es.foldl addEdge m ≠ [] := by
  induction es generalizing m with
  | nil => simpa
  | cons e rest ih => exact ih (addEdge m e) (addEdge_ne_nil m e)

theorem buildLanguageMap_eq_nil_iff (repositories : List Repository) :
    buildLanguageMap repositories = [] ↔ allEdges repositories = [] := by
  rw [buildLanguageMap_eq_foldl]
  cases he : allEdges repositories with
  | nil => simp
  | cons e rest =>
      simp only [List.foldl_cons]
      constructor
      · intro h
        exact absurd h (foldl_addEdge_ne_nil rest (addEdge [] e) (addEdge_ne_nil [] e))
      · intro h
        cases h

/-- C5 counterexample: a repository reporting one language edge of size zero gives
total size zero, yet the returned sequence is not empty: it contains the language
with an undefined (NaN) percentage. -/
theorem c5_zero_total_counterexample :
    totalSizeOf (buildLanguageMap [⟨⟨[⟨0, ⟨"Go", none⟩⟩]⟩⟩]) = 0 ∧
    calculateLanguageStats [⟨⟨[⟨0, ⟨"Go", none⟩⟩]⟩⟩] ≠ [] := by
  refine ⟨by decide, ?_⟩
  have h : calculateLanguageStats [⟨⟨[⟨0, ⟨"Go", none⟩⟩]⟩⟩] =
      [⟨"Go", "#858585", none, 0⟩] := by
    simp [calculateLanguageStats, langStats, buildLanguageMap, addEdge, lookupEntry,
      addSize, jsOrDefault, totalSizeOf, mkStat, sortDesc, insertDesc]
  rw [h]
  simp

theorem abs_round2_sub (y : ℚ) : |round2 y - y| ≤ 1 / 200 := by
  have h0 : round2 y - y = (((round (y * 100) : ℤ) : ℚ) - y * 100) / 100 := by
    rw [round2]; ring
  rw [h0, abs_div]
  have h1 : |(100 : ℚ)| = 100 := by norm_num
  rw [h1]
  have h2 := abs_sub_round (y * 100)
  rw [abs_sub_comm] at h2
  calc |((round (y * 100) : ℤ) : ℚ) - y * 100| / 100
      ≤ (1 / 2) / 100 :=
        (div_le_div_iff_of_pos_right (by norm_num : (0 : ℚ) < 100)).mpr h2
    _ = 1 / 200 := by norm_num

theorem abs_sum_round2 (ys : List ℚ) :
    |(ys.map round2).sum - ys.sum| ≤ (ys.length : ℚ) / 200 := by
  induction ys with
  | nil => simp
  | cons y rest ih =>
      simp only [List.map_cons, List.sum_cons, List.length_cons]
      have key : (round2 y + (rest.map round2).sum) - (y + rest.sum) =
          (round2 y - y) + ((rest.map round2).sum - rest.sum) := by ring
      rw [key]
      calc |(round2 y - y) + ((rest.map round2).sum - rest.sum)|
          ≤ |round2 y - y| + |(rest.map round2).sum - rest.sum| := abs_add _ _
        _ ≤ 1 / 200 + (rest.length : ℚ) / 200 := add_le_add (abs_round2_sub y) ih
        _ = ((rest.length : ℚ) + 1) / 200 := by ring
        _ = (((rest.length + 1 : ℕ)) : ℚ) / 200 := by push_cast; ring

theorem langStats_sum_exact (m : List LangEntry) (h : totalSizeOf m ≠ 0) :
    (m.map (fun x => ((x.size : ℚ) / ((totalSizeOf m : ℕ) : ℚ)) * 100)).sum = 100 := by
  have hT0 : ((totalSizeOf m : ℕ) : ℚ) ≠ 0 := Nat.cast_ne_zero.mpr h
  have h1 : ∀ x ∈ m, ((x.size : ℚ) / ((totalSizeOf m : ℕ) : ℚ)) * 100 =
      (x.size : ℚ) * (100 / ((totalSizeOf m : ℕ) : ℚ)) := by
    intro x _
    ring
  rw [List.map_congr_left h1, List.sum_map_mul_right]
  have h2 : (m.map (fun x => (x.size : ℚ))).sum = ((totalSizeOf m : ℕ) : ℚ) := by
    rw [totalSizeOf, Nat.cast_list_sum, List.map_map]
    rfl
  rw [h2]
  field_simp

/-- C5 as amended: when the total accumulated size is zero the returned sequence is
empty exactly when no language edges were seen at all (a size-zero edge still
produces an entry, with an undefined NaN percentage); when the total is positive,
the percentages of the full non-truncated set sum to 100 up to the rounding
epsilon of half a hundredth per language. -/
theorem c5_percentage_sum (repositories : List Repository) :
    (totalSizeOf (buildLanguageMap repositories) = 0 →
      ((calculateLanguageStats repositories = [] ↔ allEdges repositories = []) ∧
        ∀ e ∈ calculateLanguageStats repositories, e.percentage = none)) ∧
    (totalSizeOf (buildLanguageMap repositories) ≠ 0 →
      |((langStats repositories).map (fun e => e.percentage.getD 0)).sum - 100| ≤
        ((langStats repositories).length : ℚ) / 200) := by
  constructor
  · intro hT
    constructor
    · have h1 : sortDesc (langStats repositories) = [] ↔ langStats repositories = [] := by
        constructor
        · intro h
          have hlen := (sortDesc_perm (langStats repositories)).length_eq
          rw [h] at hlen
          exact List.length_eq_zero.mp hlen.symm
        · intro h
          rw [h]
          rfl
      have h2 : langStats repositories = [] ↔ buildLanguageMap repositories = [] := by
        rw [langStats]
        simp
      rw [calculateLanguageStats, List.take_eq_nil_iff, h1, h2,
        buildLanguageMap_eq_nil_iff]
      simp
    · intro e he
      obtain ⟨x, _, rfl⟩ := mem_calculateLanguageStats repositories e he
      simp [mkStat, hT]
  · intro hT
    have hmap : (langStats repositories).map (fun e => e.percentage.getD 0) =
        ((buildLanguageMap repositories).map
          (fun x => ((x.size : ℚ) /
            ((totalSizeOf (buildLanguageMap repositories) : ℕ) : ℚ)) * 100)).map round2 := by
      rw [langStats, List.map_map, List.map_map]
      apply List.map_congr_left
      intro x _
      simp [mkStat, hT]
    have hlen : (langStats repositories).length = (buildLanguageMap repositories).length := by
      simp [langStats]
    rw [hmap, hlen]
    have habs := abs_sum_round2 ((buildLanguageMap repositories).map
      (fun x => ((x.size : ℚ) /
        ((totalSizeOf (buildLanguageMap repositories) : ℕ) : ℚ)) * 100))
    rw [langStats_sum_exact (buildLanguageMap repositories) hT] at habs
    simpa using habs

/-- C5 witness: the amended statement at two concrete inputs, one with total size
zero and a size-zero edge, one with a single positive language. -/
theorem c5_percentage_sum_witness :
    (totalSizeOf (buildLanguageMap [⟨⟨[⟨0, ⟨"Go", none⟩⟩]⟩⟩]) = 0 ∧
      (calculateLanguageStats [⟨⟨[⟨0, ⟨"Go", none⟩⟩]⟩⟩] = [] ↔
        allEdges [⟨⟨[⟨0, ⟨"Go", none⟩⟩]⟩⟩] = [])) ∧
    (totalSizeOf (buildLanguageMap [⟨⟨[⟨4, ⟨"Go", none⟩⟩]⟩⟩]) ≠ 0 ∧
      |((langStats [⟨⟨[⟨4, ⟨"Go", none⟩⟩]⟩⟩]).map (fun e => e.percentage.getD 0)).sum - 100| ≤
        ((langStats [⟨⟨[⟨4, ⟨"Go", none⟩⟩]⟩⟩]).length : ℚ) / 200) := by
  refine ⟨⟨by decide, ((c5_percentage_sum [⟨⟨[⟨0, ⟨"Go", none⟩⟩]⟩⟩]).1 (by decide)).1⟩,
    ⟨by decide, (c5_percentage_sum [⟨⟨[⟨4, ⟨"Go", none⟩⟩]⟩⟩]).2 (by decide)⟩⟩

/-- C9: the request handler returns a 400 response carrying only the diagnostic
text and no image headers when the username parameter is absent (or empty, which
JavaScript truthiness also rejects); any failure of the fetch pipeline yields a
500 response whose body is the diagnostic message prefixed with Error: and again
no image headers, never an image; and on success it returns status 200 with the
image/svg+xml content type, a 14400 second (four hour) cache lifetime and the
rendered document as body. -/
theorem c9_request_handler (username : Option String) (fetched : Except String FetchData)
    (today : String) (tz : Int) :
    ((username = none ∨ username = some "") →
      handler username fetched today tz =
        ⟨400, none, none, "Username parameter is required"⟩) ∧
    (∀ msg, ¬(username = none ∨ username = some "") → fetched = Except.error msg →
      handler username fetched today tz = ⟨500, none, none, "Error: " ++ msg⟩) ∧
    (∀ data, ¬(username = none ∨ username = some "") → fetched = Except.ok data →
      handler username fetched today tz =
        ⟨200, some "image/svg+xml", some "public, max-age=14400",
          generateSVG tz data.calendar.totalContributions
            (calculateStreaks data.calendar.weeks today)
            (getLast90Days data.calendar.weeks)
            (calculateLanguageStats data.repositories) data.createdAt⟩) := by
  refine ⟨?_, ?_, ?_⟩
  · intro h
    simp only [handler, if_pos h]
  · intro msg h hf
    simp only [handler, if_neg h, hf]
  · intro data h hf
    simp only [handler, if_neg h, hf]

/-- C9 witness: the three handler paths at concrete inputs. -/
theorem c9_request_handler_witness :
    handler none (Except.error "x") "2024-06-15" 0 =
      ⟨400, none, none, "Username parameter is required"⟩ ∧
    handler (some "octocat") (Except.error "Failed to fetch GitHub data") "2024-06-15" 0 =
      ⟨500, none, none, "Error: Failed to fetch GitHub data"⟩ ∧
    (handler (some "octocat") (Except.ok ⟨⟨0, []⟩, [], "2014-01-05T10:00:00Z"⟩)
        "2024-06-15" 0).status = 200 ∧
    (handler (some "octocat") (Except.ok ⟨⟨0, []⟩, [], "2014-01-05T10:00:00Z"⟩)
        "2024-06-15" 0).contentType = some "image/svg+xml" ∧
    (handler (some "octocat") (Except.ok ⟨⟨0, []⟩, [], "2014-01-05T10:00:00Z"⟩)
        "2024-06-15" 0).cacheControl = some "public, max-age=14400" := by
  have h1 := (c9_request_handler none (Except.error "x") "2024-06-15" 0).1 (Or.inl rfl)
  have h2 := (c9_request_handler (some "octocat") (Except.error "Failed to fetch GitHub data")
    "2024-06-15" 0).2.1 "Failed to fetch GitHub data" (by decide) rfl
  have h3 := (c9_request_handler (some "octocat")
    (Except.ok ⟨⟨0, []⟩, [], "2014-01-05T10:00:00Z"⟩) "2024-06-15" 0).2.2
    ⟨⟨0, []⟩, [], "2014-01-05T10:00:00Z"⟩ (by decide) rfl
  exact ⟨h1, h2, by rw [h3], by rw [h3], by rw [h3]⟩

end GitHubStats
